import Mathlib

/-!
Verification development for the cypher-ray backend's metered
job-orchestration subsystem.  The JavaScript source is embedded shallowly:
JS numbers become `ℚ` (or `ℤ`/`ℕ` where the source only ever holds
integers), possibly-absent object fields become `Option`, fallible code
returns `Except`, and the Mongo documents mutated in place become explicit
state records threaded through the operations.
-/

/-! ## JavaScript truthiness helpers

JS `a || b` picks `b` when `a` is absent (`undefined`/`null`) or falsy
(`""` for strings, `0` for numbers).  Arrays are truthy even when empty,
so for array-valued fields `a || b` only tests presence. -/

/-- JS `a || b` on string-valued fields: `undefined`, `null` and `""` fall through. -/
def orStr : Option String → Option String → Option String
  | some s, b => if s = "" then b else some s
  | none, b => b

/-- JS `a || b` on number-valued fields: `undefined`, `null` and `0` fall through. -/
def orNum : Option ℚ → Option ℚ → Option ℚ
  | some q, b => if q = 0 then b else some q
  | none, b => b

/-- JS `a || d` producing a plain string default. -/
def strOrD (a : Option String) (d : String) : String :=
  match a with
  | some s => if s = "" then d else s
  | none => d

/-- JS `Math.round` on the (non-negative in all call sites) values we model. -/
def jsRound (q : ℚ) : ℤ := ⌊q + 1/2⌋

/-- JS `String.prototype.includes(pat)` for a non-empty pattern. -/
def containsSub (s pat : String) : Bool := (s.splitOn pat).length > 1

/-! ## Credit Pricer — `src/services/credit.calculator.js` -/

/-- `getBaseCreditsBySize(sizeInBytes)`: base credits from file size.
JS divides by `1024*1024` in binary floating point; dividing an integral
byte count by a power of two and comparing against `0.5`, `5`, `20`, `50`
is exact, so `ℚ` arithmetic reproduces it. -/
def getBaseCreditsBySize (sizeInBytes : ℚ) : ℕ :=
  let sizeInMB := sizeInBytes / (1024 * 1024)
  if sizeInMB < 1/2 then 2
  else if sizeInMB < 5 then 5
  else if sizeInMB < 20 then 10
  else if sizeInMB < 50 then 20
  else 35

/-- `getTimePenalty(timeInSeconds)`: time-based credits. -/
def getTimePenalty (timeInSeconds : ℚ) : ℕ :=
  if timeInSeconds < 10 then 0
  else if timeInSeconds < 30 then 3
  else if timeInSeconds < 60 then 7
  else if timeInSeconds < 120 then 15
  else 25

structure CreditBreakdownCalc where
  baseCredits : ℕ
  timeCredits : ℕ
  complexityCredits : ℕ
  deriving DecidableEq, Repr

structure CreditCalc where
  total : ℤ
  breakdown : CreditBreakdownCalc
  deriving DecidableEq, Repr

/-- `calculateDynamicCredits(fileSize, processingTime)` — base + time, ceiled. -/
def calculateDynamicCredits (fileSize processingTime : ℚ) : CreditCalc :=
  let baseCredits := getBaseCreditsBySize fileSize
  let timeCredits := getTimePenalty processingTime
  let total : ℚ := baseCredits + timeCredits
  { total := ⌈total⌉
    breakdown :=
      { baseCredits := baseCredits
        timeCredits := timeCredits
        complexityCredits := 0 } }

/-- `getSizeTier(sizeInBytes)`. -/
def getSizeTier (sizeInBytes : ℚ) : String :=
  let sizeInMB := sizeInBytes / (1024 * 1024)
  if sizeInMB < 1/2 then "tiny"
  else if sizeInMB < 5 then "small"
  else if sizeInMB < 20 then "medium"
  else if sizeInMB < 50 then "large"
  else "huge"

/-- `getTimeTier(timeInSeconds)`. -/
def getTimeTier (timeInSeconds : ℚ) : String :=
  if timeInSeconds < 10 then "quick"
  else if timeInSeconds < 30 then "normal"
  else if timeInSeconds < 60 then "slow"
  else if timeInSeconds < 120 then "heavy"
  else "extreme"

/-- From the spec's words (size table of §4.D, thresholds strict, in bytes):
used to compare the code's pricer against the claimed step function. -/
def specSizeCredits (bytes : ℚ) : ℕ :=
  if bytes < 524288 then 2
  else if bytes < 5242880 then 5
  else if bytes < 20971520 then 10
  else if bytes < 52428800 then 20
  else 35

/-- From the spec's words (time table of §4.D, thresholds strict, in seconds). -/
def specTimeCredits (seconds : ℚ) : ℕ :=
  if seconds < 10 then 0
  else if seconds < 30 then 3
  else if seconds < 60 then 7
  else if seconds < 120 then 15
  else 25

/-! ## Credit Ledger — `src/services/credit.service.js`

A user's embedded credit snapshot and the append-only transaction log.
Each service function loads the user, mutates the snapshot, saves, and
appends one `CreditTransaction`; we model that as a pure map from the
snapshot to the new snapshot plus the created transaction. -/

structure Credits where
  total : ℤ
  used : ℤ
  remaining : ℤ
  deriving DecidableEq, Repr

/-- The document passed to `CreditTransaction.create`.  The `apiKeyId`
and `paymentId` fields are what the service code passes; whether they
are persisted is decided by `createTxn` below. -/
structure Txn where
  txnType : String
  amount : ℤ
  description : String
  jobId : Option String := none
  apiKeyId : Option String := none
  paymentId : Option String := none
  balanceBefore : ℤ
  balanceAfter : ℤ
  deriving DecidableEq, Repr

/-- `CreditTransaction.create(doc)` — the stored document.  The schema in
`credit.transaction.model.js` declares only the paths `userId`, `type`,
`amount`, `description`, `jobId`, `balanceBefore`, `balanceAfter`,
`createdAt`, and Mongoose runs in default strict mode, so the `paymentId`
passed by `addCreditsFromPayment` and the `apiKeyId` passed by
`deductCreditsForSDK` are silently dropped from the stored document. -/
def createTxn (t : Txn) : Txn := { t with apiKeyId := none, paymentId := none }

/-- `addCredits(userId, amount, description, type)` — `type` is one of
`credit`, `bonus`, `refund` per the source's doc comment. -/
def addCredits (c : Credits) (amount : ℤ) (description : String)
    (txnType : String) : Credits × Txn :=
  let balanceBefore := c.remaining
  let c1 : Credits := { c with total := c.total + amount, remaining := c.remaining + amount }
  let balanceAfter := c1.remaining
  (c1, createTxn { txnType := txnType, amount := amount, description := description
                   balanceBefore := balanceBefore, balanceAfter := balanceAfter })

/-- `deductCredits(userId, amount, description, jobId)` — throws on
insufficient balance, else debits `remaining` and credits `used`. -/
def deductCredits (c : Credits) (amount : ℤ) (description : String)
    (jobId : Option String) : Except String (Credits × Txn) :=
  if c.remaining < amount then .error "Insufficient credits"
  else
    let balanceBefore := c.remaining
    let c1 : Credits := { c with used := c.used + amount, remaining := c.remaining - amount }
    let balanceAfter := c1.remaining
    .ok (c1, createTxn { txnType := "debit", amount := amount, description := description
                         jobId := jobId, balanceBefore := balanceBefore
                         balanceAfter := balanceAfter })

/-- `hasEnoughCredits(userId, amount)`. -/
def hasEnoughCredits (c : Credits) (amount : ℤ) : Bool :=
  c.remaining ≥ amount

/-- `setCredits(userId, amount, description)` — admin-only replacement:
`total := amount; remaining := amount; used := 0`, then a `credit`
transaction of `amount` is logged with the old/new `remaining`. -/
def setCredits (c : Credits) (amount : ℤ) (description : String) : Credits × Txn :=
  let balanceBefore := c.remaining
  let c1 : Credits := { total := amount, remaining := amount, used := 0 }
  let balanceAfter := c1.remaining
  (c1, createTxn { txnType := "credit", amount := amount, description := description
                   balanceBefore := balanceBefore, balanceAfter := balanceAfter })

/-- `deductCreditsForSDK(userId, amount, jobId, apiKeyId, description)` —
no pre-check: the balance may go negative (debt model).  The JS default
description is `"Binary Analysis"` via `description || ...`. -/
def deductCreditsForSDK (c : Credits) (amount : ℤ) (jobId : String)
    (apiKeyId : Option String) (description : Option String) : Credits × Txn :=
  let balanceBefore := c.remaining
  let c1 : Credits := { c with used := c.used + amount, remaining := c.remaining - amount }
  let balanceAfter := c1.remaining
  (c1, createTxn { txnType := "debit", amount := amount
                   description := strOrD description "Binary Analysis"
                   jobId := some jobId, apiKeyId := apiKeyId
                   balanceBefore := balanceBefore, balanceAfter := balanceAfter })

/-- `refundCreditsForSDK(userId, amount, jobId, reason)` — adds back to
`remaining`, decrements `used` floor-clamped at 0. -/
def refundCreditsForSDK (c : Credits) (amount : ℤ) (jobId : String)
    (reason : String) : Credits × Txn :=
  let balanceBefore := c.remaining
  let used1 := c.used - amount
  let c1 : Credits := { c with used := max 0 used1, remaining := c.remaining + amount }
  let balanceAfter := c1.remaining
  (c1, createTxn { txnType := "refund", amount := amount
                   description := "SDK Analysis Refund - " ++ reason ++ " - Job " ++ jobId
                   jobId := some jobId
                   balanceBefore := balanceBefore, balanceAfter := balanceAfter })

structure PaymentCreditResult where
  credits : Credits
  txn : Txn
  debtCleared : ℤ
  deriving DecidableEq, Repr

/-- `addCreditsFromPayment(userId, amount, paymentId, description)` —
computes the outstanding debt, tops up `total` and `remaining`, and notes
the cleared debt in the transaction description. -/
def addCreditsFromPayment (c : Credits) (amount : ℤ) (paymentId : String)
    (description : String) : PaymentCreditResult :=
  let balanceBefore := c.remaining
  let debtAmount : ℤ := if balanceBefore < 0 then |balanceBefore| else 0
  let c1 : Credits := { c with total := c.total + amount, remaining := c.remaining + amount }
  let balanceAfter := c1.remaining
  let finalDescription :=
    if debtAmount > 0 then
      description ++ " (Debt cleared: " ++ toString debtAmount ++ " credits)"
    else description
  { credits := c1
    txn := createTxn { txnType := "credit", amount := amount
                       description := finalDescription
                       paymentId := some paymentId
                       balanceBefore := balanceBefore, balanceAfter := balanceAfter }
    debtCleared := debtAmount }

/-! A ledger-operation view for the replay invariant: the operations the
spec names (minus `SetCredits`, see the C3 correction), applied in
sequence from a starting snapshot. -/

inductive LedgerOp where
  | addOp (amount : ℤ) (description : String) (txnType : String)
  | deductUsage (amount : ℤ) (jobId : String) (apiKeyId : Option String)
      (description : Option String)
  | refundOp (amount : ℤ) (jobId : String) (reason : String)
  | addFromPayment (amount : ℤ) (paymentId : String) (description : String)
  deriving DecidableEq, Repr

def applyLedgerOp (c : Credits) : LedgerOp → Credits × Txn
  | .addOp amount description txnType => addCredits c amount description txnType
  | .deductUsage amount jobId apiKeyId description =>
      deductCreditsForSDK c amount jobId apiKeyId description
  | .refundOp amount jobId reason => refundCreditsForSDK c amount jobId reason
  | .addFromPayment amount paymentId description =>
      let r := addCreditsFromPayment c amount paymentId description
      (r.credits, r.txn)

def applyLedgerOps (c : Credits) : List LedgerOp → Credits × List Txn
  | [] => (c, [])
  | op :: ops =>
      let (c1, txn) := applyLedgerOp c op
      let (c2, txns) := applyLedgerOps c1 ops
      (c2, txn :: txns)

/-- The signed amount of a transaction: `debit` counts negative, every
other type positive. -/
def txnSign (t : Txn) : ℤ := if t.txnType = "debit" then -t.amount else t.amount

def txnSignSum (ts : List Txn) : ℤ := (ts.map txnSign).sum

/-! ## Analyzer Client normalizer — `src/services/analysis.service.js`

The external analyzer returns JSON in one of two shapes: a modular
wrapper under `analysis.*` or a flat legacy shape.  One record type
carries every key `normalizeResults` reads or writes; absent keys are
`none`.  The JS `type` keys are spelled `algoType` / `vulnType` here
(`type` is reserved in Lean), and `_analysis_metadata` is spelled
`analysisMetadata`. -/

structure FileMetadataRec where
  format : Option String := none
  file_type : Option String := none
  size : Option ℚ := none
  size_bytes : Option ℚ := none
  md5 : Option String := none
  sha1 : Option String := none
  sha256 : Option String := none
  architecture : Option String := none
  stripped : Option Bool := none
  deriving DecidableEq, Repr

structure RawAlgo where
  name : Option String := none
  algorithm_name : Option String := none
  confidence : Option ℚ := none
  confidence_score : Option ℚ := none
  algoType : Option String := none
  algorithm_class : Option String := none
  structural_signature : Option String := none
  evidence : Option (List String) := none
  locations : Option (List String) := none
  deriving DecidableEq, Repr

structure RawFunc where
  name : Option String := none
  function_name : Option String := none
  address : Option String := none
  crypto_operations : Option (List String) := none
  explanation : Option String := none
  function_summary : Option String := none
  semantic_tags : Option (List String) := none
  is_crypto : Option Bool := none
  confidence : Option ℚ := none
  confidence_score : Option ℚ := none
  related_algorithm : Option String := none
  deriving DecidableEq, Repr

structure RawProtocol where
  protocol : Option String := none
  version : Option String := none
  confidence : Option ℚ := none
  evidence : Option (List String) := none
  cipher_suites : Option (List String) := none
  implementation_status : Option String := none
  security_notes : Option String := none
  deriving DecidableEq, Repr

structure RawVuln where
  severity : String
  vulnType : String
  description : String
  extracted_value : Option String := none
  deriving DecidableEq, Repr

structure RawRec where
  priority : String
  category : String
  recommendation : String
  deriving DecidableEq, Repr

structure ExplainabilityRec where
  security_score : Option ℚ := none
  summary : Option String := none
  detailed_explanation : Option String := none
  key_findings : Option (List String) := none
  primary_purpose : Option String := none
  deriving DecidableEq, Repr

structure StructuralObj where
  crypto_patterns : Option (List String) := none
  code_obfuscation : Option String := none
  implementation_quality : Option String := none
  deriving DecidableEq, Repr

structure LibraryObj where
  identified_libraries : Option (List String) := none
  custom_implementations : Option (List String) := none
  deriving DecidableEq, Repr

structure VulnAssessment where
  has_vulnerabilities : Bool
  severity : String
  vulnerabilities : List String
  recommendations : List String
  security_score : ℚ
  deriving DecidableEq, Repr

structure AMeta where
  model_used : Option String := none
  provider : Option String := none
  cost : Option ℚ := none
  duration : Option ℚ := none
  total_pipeline_cost : Option ℚ := none
  stages_completed : Option ℚ := none
  deriving DecidableEq, Repr

/-- The flat analyzer payload: every key `normalizeResults` reads, plus
every key it writes (the normalizer's output is fed back through it for
the stability claim).  `structural_analysis` and `library_usage` are an
object on input but a rendered string on output, hence the sum. -/
structure AnalyzerData where
  file_metadata : Option FileMetadataRec := none
  detected_algorithms : Option (List RawAlgo) := none
  detected_functions : Option (List RawFunc) := none
  function_analyses : Option (List RawFunc) := none
  detected_protocols : Option (List RawProtocol) := none
  vulnerabilities : Option (List RawVuln) := none
  recommendations : Option (List RawRec) := none
  explainability : Option ExplainabilityRec := none
  structural_analysis : Option (StructuralObj ⊕ String) := none
  library_usage : Option (LibraryObj ⊕ String) := none
  vulnerability_assessment : Option VulnAssessment := none
  overall_assessment : Option String := none
  xai_explanation : Option String := none
  key_findings : Option (List String) := none
  primary_purpose : Option String := none
  analysisMetadata : Option AMeta := none
  deriving DecidableEq, Repr

/-- A raw analyzer response: either the modular shape (payload under
`analysis`) or the flat legacy shape (payload on the object itself). -/
structure RawResults extends AnalyzerData where
  analysis : Option AnalyzerData := none
  deriving DecidableEq, Repr

/-- Field reads off `data.structural_analysis || {}`: a string (or an
absent value) has no `crypto_patterns`-style properties. -/
def structuralObjOf : Option (StructuralObj ⊕ String) → StructuralObj
  | some (.inl o) => o
  | _ => {}

def libraryObjOf : Option (LibraryObj ⊕ String) → LibraryObj
  | some (.inl o) => o
  | _ => {}

/-- `_inferStructure(algorithmName)` — structural pattern from the name.
The last literal reproduces the source file's bytes verbatim. -/
def inferStructure (algorithmName : Option String) : Option String :=
  match algorithmName with
  | none => none
  | some an =>
    if an = "" then none
    else
      let name := an.toLower
      if containsSub name "aes" then some "SPN"
      else if containsSub name "des" then some "Feistel"
      else if containsSub name "chacha" || containsSub name "salsa" then some "ARX"
      else if containsSub name "sha" || containsSub name "md5" then some "Merkle-Damg√•rd"
      else none

/-- The per-algorithm map inside `normalizeResults`. -/
def mapAlgo (algo : RawAlgo) : RawAlgo :=
  { name := none
    algorithm_name := orStr algo.name algo.algorithm_name
    confidence := none
    confidence_score := orNum algo.confidence algo.confidence_score
    algoType := none
    algorithm_class := orStr algo.algoType algo.algorithm_class
    structural_signature := orStr algo.structural_signature (inferStructure algo.name)
    evidence := some (algo.evidence.getD [])
    locations := some (algo.locations.getD []) }

/-- The per-function map inside `normalizeResults`.  Note
`semantic_tags: func.crypto_operations || func.semantic_tags || []`: an
array is truthy even when empty, so a present-but-empty
`crypto_operations` shadows `semantic_tags`. -/
def mapFunc (func : RawFunc) : RawFunc :=
  { name := none
    function_name := orStr func.name func.function_name
    address := func.address
    crypto_operations := some (func.crypto_operations.getD [])
    explanation := none
    function_summary :=
      orStr func.explanation (orStr func.function_summary
        (some "Cryptographic function detected"))
    semantic_tags := some (match func.crypto_operations with
      | some l => l
      | none => func.semantic_tags.getD [])
    is_crypto := some true
    confidence := none
    confidence_score := orNum func.confidence (orNum func.confidence_score (some (7/10)))
    related_algorithm := func.related_algorithm }

/-- `normalizeResults(rawResults)` — accepts both shapes and emits the
canonical result artifact. -/
def normalizeResults (rawResults : RawResults) : RawResults :=
  let data := rawResults.analysis.getD rawResults.toAnalyzerData
  let fileMetadata := data.file_metadata.getD {}
  let algorithms := (data.detected_algorithms.getD []).map mapAlgo
  let functions :=
    (match data.detected_functions with
      | some l => l
      | none => data.function_analyses.getD []).map mapFunc
  let protocols := data.detected_protocols.getD []
  let vulnerabilities := data.vulnerabilities.getD []
  let hasVulnerabilities := !vulnerabilities.isEmpty
  let criticalVulns := vulnerabilities.filter (fun v => v.severity == "critical")
  let highVulns := vulnerabilities.filter (fun v => v.severity == "high")
  let severity :=
    if !criticalVulns.isEmpty then "Critical"
    else if !highVulns.isEmpty then "High"
    else if !vulnerabilities.isEmpty then "Medium"
    else "None"
  let vulnDescriptions := vulnerabilities.map (fun v =>
    "[" ++ v.severity.toUpper ++ "] " ++ v.vulnType ++ ": " ++ v.description ++
      (match v.extracted_value with
        | some ev => if ev = "" then "" else " (Value: " ++ ev ++ ")"
        | none => ""))
  let recommendations := (data.recommendations.getD []).map (fun r =>
    "[" ++ r.priority.toUpper ++ "] " ++ r.category ++ ": " ++ r.recommendation)
  let explainability := data.explainability.getD {}
  let sObj := structuralObjOf data.structural_analysis
  let joinedPatterns : Option String := sObj.crypto_patterns.map (String.intercalate ", ")
  let firstPart : List String :=
    match joinedPatterns with
    | some s => if s = "" then [] else [s]
    | none => []
  let structuralSummary := String.intercalate ". "
    (firstPart ++
      ["Code obfuscation: " ++ strOrD sObj.code_obfuscation "unknown",
       "Implementation: " ++ strOrD sObj.implementation_quality "unknown"])
  let lObj := libraryObjOf data.library_usage
  let libraryInfo := String.intercalate ", "
    ((lObj.identified_libraries.getD []) ++
      (lObj.custom_implementations.getD []).map (fun impl => "Custom: " ++ impl))
  { analysis := none
    file_metadata := some
      { format := none
        file_type := orStr fileMetadata.format fileMetadata.file_type
        size := none
        size_bytes := orNum fileMetadata.size fileMetadata.size_bytes
        md5 := fileMetadata.md5
        sha1 := fileMetadata.sha1
        sha256 := fileMetadata.sha256
        architecture := fileMetadata.architecture
        stripped := fileMetadata.stripped }
    detected_algorithms := some algorithms
    detected_functions := none
    function_analyses := some functions
    detected_protocols := some protocols
    vulnerabilities := none
    recommendations := none
    explainability := none
    structural_analysis := some (.inr structuralSummary)
    library_usage := some (.inr libraryInfo)
    vulnerability_assessment := some
      { has_vulnerabilities := hasVulnerabilities
        severity := severity
        vulnerabilities := vulnDescriptions
        recommendations := recommendations
        security_score := (orNum explainability.security_score (some 0)).getD 0 }
    overall_assessment :=
      orStr explainability.summary
        (orStr data.overall_assessment (some "Analysis completed successfully"))
    xai_explanation :=
      orStr explainability.detailed_explanation
        (orStr data.xai_explanation (orStr explainability.summary (some "")))
    key_findings := some (explainability.key_findings.getD [])
    primary_purpose := explainability.primary_purpose
    analysisMetadata := some (data.analysisMetadata.getD {}) }

/-! ## Analysis job model — `src/models/analysis.job.model.js`

One Mongo document per job.  Timestamps are rational milliseconds; the
`new Date()` calls inside the methods take the clock value as an
argument. -/

structure ErrRecord where
  message : String
  stack : Option String := none
  code : Option String := none
  deriving DecidableEq, Repr

structure CreditBreakdownRec where
  baseCredits : ℤ := 0
  timeCredits : ℤ := 0
  complexityCredits : ℤ := 0
  sizeTier : Option String := none
  timeTier : Option String := none
  totalCalculated : ℤ := 0
  deriving DecidableEq, Repr

structure JobMetadata where
  sourceIp : Option String := none
  userAgent : Option String := none
  sdkVersion : Option String := none
  ciPlatform : Option String := none
  deriving DecidableEq, Repr

structure JobRecord where
  id : String
  userId : String
  apiKeyId : Option String := none
  fileHash : String
  filename : String
  cloudinaryUrl : Option String := none
  cloudinaryPublicId : Option String := none
  fileSize : ℚ
  status : String := "queued"
  tier : String := "tier2"
  priority : ℤ := 2
  creditsDeducted : ℤ := 0
  processingTimeSeconds : ℤ := 0
  creditBreakdown : CreditBreakdownRec := {}
  progress : ℤ := 0
  results : Option RawResults := none
  error : Option ErrRecord := none
  queuedAt : Option ℚ := none
  startedAt : Option ℚ := none
  completedAt : Option ℚ := none
  metadata : JobMetadata := {}
  deriving DecidableEq, Repr

/-- `analysisJobSchema.methods.updateStatus(status, error)`; `now` is the
value of `new Date()` at the call. -/
def updateStatus (job : JobRecord) (status : String) (error : Option ErrRecord)
    (now : ℚ) : JobRecord :=
  let job := { job with status := status }
  let job :=
    if status = "processing" then { job with startedAt := some now }
    else if status = "completed" ∨ status = "failed" then
      { job with
        completedAt := some now
        progress := if status = "completed" then 100 else job.progress }
    else job
  match error with
  | some e => { job with error := some e }
  | none => job

/-- `analysisJobSchema.methods.updateProgress(progress)` — clamps to 0..100. -/
def updateProgress (job : JobRecord) (progress : ℤ) : JobRecord :=
  { job with progress := min 100 (max 0 progress) }

/-! ## Queue worker — `src/services/credit.service.js`, `processAnalysisJob`
(the current worker: dynamic credits computed after analysis, deduction
after success, no upfront charge).

External effects are parameters: whether the Cloudinary download
succeeds, what the ML service returns, whether the ledger write goes
through, and the wall-clock readings.  The state carries the job row,
the owner's credit snapshot, the transaction log, and observable effect
counters (analyzer calls, blob/temp deletions, socket events). -/

structure JobData where
  jobId : String
  userId : String
  cloudinaryUrl : String
  cloudinaryPublicId : String
  fileHash : String
  filename : String
  fileSize : ℚ
  tier : String
  apiKeyId : Option String := none
  source : String := "sdk"
  deriving DecidableEq, Repr

structure WorkerEnv where
  now : ℚ
  analysisStartTime : ℚ
  analysisEndTime : ℚ
  downloadOk : Bool
  analyzerResult : Except String RawResults
  ledgerOk : Bool
  deriving Repr

structure WorkerState where
  job : Option JobRecord
  credits : Credits
  txns : List Txn
  analyzerCalls : ℕ := 0
  blobDeleted : Bool := false
  tempDeleted : Bool := false
  events : List String := []
  deriving Repr

structure WorkerResult where
  success : Bool
  jobId : String
  results : RawResults
  creditsCharged : ℤ
  deriving Repr

/-- The `catch` block of `processAnalysisJob`: mark the job failed (when
it was loaded), refund nothing, emit `job:failed`, clean the temp file
(when one was created), delete the blob, and re-throw for the queue's
retry policy. -/
def workerCatch (d : JobData) (env : WorkerEnv) (s : WorkerState)
    (analysisJob : Option JobRecord) (tempFile : Bool) (errMsg : String) :
    WorkerState × Except String WorkerResult :=
  let s :=
    match analysisJob with
    | some aj =>
        { s with job := some (updateStatus aj "failed" (some { message := errMsg }) env.now) }
    | none => s
  let s := { s with events := "job:failed" :: s.events }
  let s := if tempFile then { s with tempDeleted := true } else s
  let s := if d.cloudinaryPublicId = "" then s else { s with blobDeleted := true }
  (s, .error errMsg)

/-- `processAnalysisJob(job)` — the per-job worker state machine. -/
def processAnalysisJob (d : JobData) (env : WorkerEnv) (s : WorkerState) :
    WorkerState × Except String WorkerResult :=
  match s.job with
  | none => workerCatch d env s none false "Job not found in database"
  | some aj0 =>
    let aj := updateStatus aj0 "processing" none env.now
    let s := { s with job := some aj, events := "job:processing" :: s.events }
    let aj := updateProgress aj 20
    let s := { s with job := some aj }
    if env.downloadOk then
      let aj := updateProgress aj 40
      let s := { s with job := some aj, analyzerCalls := s.analyzerCalls + 1 }
      match env.analyzerResult with
      | .error msg => workerCatch d env s (some aj) true msg
      | .ok results =>
        let aj := updateProgress aj 75
        let s := { s with job := some aj, events := "job:progress" :: s.events }
        let aj := { aj with results := some results }
        let aj := updateProgress aj 90
        let processingTimeSeconds :=
          jsRound ((env.analysisEndTime - env.analysisStartTime) / 1000)
        let creditCalculation :=
          calculateDynamicCredits d.fileSize (processingTimeSeconds : ℚ)
        let creditsToDeduct := creditCalculation.total
        let aj :=
          { aj with
            processingTimeSeconds := processingTimeSeconds
            creditsDeducted := creditsToDeduct
            creditBreakdown :=
              { baseCredits := creditCalculation.breakdown.baseCredits
                timeCredits := creditCalculation.breakdown.timeCredits
                complexityCredits := creditCalculation.breakdown.complexityCredits
                sizeTier := some (getSizeTier d.fileSize)
                timeTier := some (getTimeTier (processingTimeSeconds : ℚ))
                totalCalculated := creditsToDeduct } }
        let s := { s with job := some aj }
        let analysisSource := if d.source = "user-dashboard" then "Dashboard" else "SDK"
        let description := analysisSource ++ " Binary Analysis"
        let s :=
          if env.ledgerOk then
            let r := deductCreditsForSDK s.credits creditsToDeduct d.jobId
              d.apiKeyId (some description)
            { s with credits := r.1, txns := r.2 :: s.txns }
          else
            -- deduction threw: logged only, the job is not failed for this
            s
        let aj := updateStatus aj "completed" none env.now
        let s := { s with
          job := some aj
          events := "job:completed" :: s.events
          tempDeleted := true }
        (s, .ok { success := true, jobId := d.jobId, results := results
                  creditsCharged := creditsToDeduct })
    else
      workerCatch d env s (some aj) false "Download failed"

/-! ## SDK ingestion — `analyzeSingle` (sdk controller, `src/unnamed/part_008`)

Single-file ingestion: hash from the upload's etag, per-owner cache
lookup on completed jobs, blob deletion on a hit, job creation and
enqueue on a miss.  Mongo's fresh `_id` is supplied by the state. -/

structure UploadFile where
  originalname : String
  size : ℚ
  path : String
  filename : String
  etag : Option String := none
  deriving DecidableEq, Repr

structure SdkRequest where
  file : Option UploadFile := none
  userId : String
  apiKeyId : String
  userTier : Option String := none
  sourceIp : Option String := none
  userAgent : Option String := none
  sdkVersion : Option String := none
  ciPlatform : Option String := none
  deriving DecidableEq, Repr

structure QueueEntry where
  processorName : String
  jobId : String
  priority : ℤ
  fileSize : ℚ
  tier : String
  source : String
  deriving DecidableEq, Repr

structure IngestState where
  jobs : List JobRecord
  queue : List QueueEntry
  deletedBlobs : List String := []
  txns : List Txn := []
  now : ℚ := 0
  freshId : String := "job-new"
  deriving Repr

structure AnalyzeResponse where
  status : ℕ
  success : Bool
  cached : Bool := false
  creditsCharged : Option ℤ := none
  jobId : Option String := none
  code : Option String := none
  deriving DecidableEq, Repr

/-- `AnalysisJob.findOne({userId, fileHash, status: "completed"}).sort({completedAt: -1})`:
the matching completed job with the greatest `completedAt`. -/
def latestCompletedJob (jobs : List JobRecord) (uid h : String) : Option JobRecord :=
  (jobs.filter (fun j => j.userId == uid && j.fileHash == h && j.status == "completed")).foldl
    (fun acc j =>
      match acc with
      | none => some j
      | some b => if b.completedAt.getD 0 < j.completedAt.getD 0 then some j else some b)
    none

/-- `analyzeSingle(req, res)` — POST /api/sdk/analyze. -/
def analyzeSingle (req : SdkRequest) (s : IngestState) :
    IngestState × AnalyzeResponse :=
  match req.file with
  | none => (s, { status := 400, success := false, code := some "MISSING_FILE" })
  | some file =>
    let fileHash := strOrD file.etag ("cloudinary-" ++ file.filename)
    match latestCompletedJob s.jobs req.userId fileHash with
    | some existingJob =>
      -- duplicate: drop the fresh upload, return the cached job, charge nothing
      let s := { s with deletedBlobs := file.filename :: s.deletedBlobs }
      (s, { status := 200, success := true, cached := true
            creditsCharged := some 0, jobId := some existingJob.id })
    | none =>
      let userTier := strOrD req.userTier "tier2"
      let priority : ℤ :=
        if userTier = "tier1" then 1 else if userTier = "tier2" then 2 else 2
      let job : JobRecord :=
        { id := s.freshId
          userId := req.userId
          apiKeyId := some req.apiKeyId
          fileHash := fileHash
          filename := file.originalname
          cloudinaryUrl := some file.path
          cloudinaryPublicId := some file.filename
          fileSize := file.size
          status := "queued"
          tier := userTier
          priority := priority
          creditsDeducted := 0
          queuedAt := some s.now
          metadata :=
            { sourceIp := req.sourceIp, userAgent := req.userAgent
              sdkVersion := req.sdkVersion, ciPlatform := req.ciPlatform } }
      let s :=
        { s with
          jobs := s.jobs ++ [job]
          queue := s.queue ++
            [{ processorName := userTier, jobId := job.id, priority := priority
               fileSize := file.size, tier := userTier, source := "sdk" }] }
      (s, { status := 202, success := true, cached := false, jobId := some job.id })

/-! ## Admission gate — `src/middleware/sdk.credit.js`, `creditCheck`

`creditCheck(creditsRequired = 1)`: the default threshold in the source
is 1 credit, and `routes/user.routes.js` wires the dashboard analyze
route as `creditCheck(1)`. -/

/-- The middleware's JS default parameter value. -/
def creditCheckDefaultRequired : ℕ := 1

structure CreditReq where
  bodyFilesLen : Option ℕ := none
  reqFilesLen : Option ℕ := none
  credits : Credits
  tier : String := "tier2"
  deriving DecidableEq, Repr

structure InsufficientResp where
  status : ℕ
  code : String
  required : ℕ
  available : ℤ
  deficit : ℤ
  deriving DecidableEq, Repr

inductive CreditDecision where
  | next (creditsRequired : ℕ)
  | reject (resp : InsufficientResp)
  deriving DecidableEq, Repr

/-- `creditCheck(creditsRequired)(req, res, next)`. -/
def creditCheck (creditsRequired : ℕ) (req : CreditReq) : CreditDecision :=
  let requiredCredits :=
    if req.bodyFilesLen.getD 0 ≠ 0 then req.bodyFilesLen.getD 0
    else if req.reqFilesLen.getD 0 ≠ 0 then req.reqFilesLen.getD 0
    else creditsRequired
  if hasEnoughCredits req.credits (requiredCredits : ℤ) then
    .next requiredCredits
  else
    .reject
      { status := 402, code := "INSUFFICIENT_CREDITS"
        required := requiredCredits, available := req.credits.remaining
        deficit := (requiredCredits : ℤ) - req.credits.remaining }

/-- `router.post("/analyze", auth, uploadSingle, creditCheck(1), analyzeSingleUser)`
from `routes/user.routes.js` line 72: the analyze route's admission gate. -/
def userAnalyzeCreditGate (req : CreditReq) : CreditDecision := creditCheck 1 req

/-! ## Payment webhook — `src/controllers/payment.controller.js`, `handleWebhook`

The Razorpay webhook: `payment.captured` marks the payment successful,
credits the user through `addCreditsFromPayment`, updates payment
history / lifetime counters, then flips `creditsAdded`; a replay finds
`creditsAdded = true` and short-circuits.  `payment.failed` records the
failure.  Emails are fire-and-forget and out of the state model. -/

structure CardDetails where
  last4 : Option String := none
  network : Option String := none
  cardType : Option String := none
  deriving DecidableEq, Repr

structure PaymentRec where
  id : String
  userId : String
  razorpayOrderId : String
  razorpayPaymentId : Option String := none
  status : String := "created"
  paymentMethod : Option String := none
  cardDetails : Option CardDetails := none
  planName : String
  creditsAmount : ℤ
  amount : ℚ
  creditsAdded : Bool := false
  failureReason : Option String := none
  deriving DecidableEq, Repr

structure UserRec where
  id : String
  credits : Credits
  paymentHistory : List String := []
  totalSpent : Option ℚ := none
  lifetimeCredits : Option ℤ := none
  deriving DecidableEq, Repr

/-- `req.body.payload.payment.entity` fields the handler reads. -/
structure WebhookPayload where
  order_id : String
  payment_id : String
  method : String
  card : Option CardDetails := none
  error_description : Option String := none
  deriving DecidableEq, Repr

structure WebhookState where
  payments : List PaymentRec
  user : UserRec
  txns : List Txn
  deriving DecidableEq, Repr

structure HttpResponse where
  status : ℕ
  success : Bool
  message : String := ""
  deriving DecidableEq, Repr

/-- `Payment.findOne({razorpayOrderId: order_id})`. -/
def findPayment (payments : List PaymentRec) (orderId : String) : Option PaymentRec :=
  payments.find? (fun p => p.razorpayOrderId == orderId)

/-- `payment.save()` — write the document back by `_id`. -/
def savePayment (payments : List PaymentRec) (p : PaymentRec) : List PaymentRec :=
  payments.map (fun q => if q.id == p.id then p else q)

/-- The `payment.captured` branch's first update of the payment row:
gateway payment id, success status, method, card metadata. -/
def capturedPayment (payload : WebhookPayload) (payment : PaymentRec) : PaymentRec :=
  { payment with
    razorpayPaymentId := some payload.payment_id
    status := "success"
    paymentMethod := some payload.method
    cardDetails :=
      match payload.card with
      | some card => some card
      | none => payment.cardDetails }

/-- `handleWebhook(req, res)`. -/
def handleWebhook (event : String) (payload : WebhookPayload)
    (s : WebhookState) : WebhookState × HttpResponse :=
  if event = "payment.captured" then
    match findPayment s.payments payload.order_id with
    | none => (s, { status := 404, success := false, message := "Payment not found" })
    | some payment =>
      if payment.creditsAdded then
        (s, { status := 200, success := true, message := "Already processed" })
      else
        let payment1 : PaymentRec := capturedPayment payload payment
        let payments1 := savePayment s.payments payment1
        let r := addCreditsFromPayment s.user.credits payment.creditsAmount
          payment.id ("Credit purchase - " ++ payment.planName)
        let user1 := { s.user with credits := r.credits }
        let user2 : UserRec :=
          { user1 with
            paymentHistory :=
              if payment.id ∈ user1.paymentHistory then user1.paymentHistory
              else user1.paymentHistory ++ [payment.id]
            totalSpent := some (user1.totalSpent.getD 0 + payment.amount / 100)
            lifetimeCredits := some (user1.lifetimeCredits.getD 0 + payment.creditsAmount) }
        let payment2 := { payment1 with creditsAdded := true }
        let payments2 := savePayment payments1 payment2
        ({ payments := payments2, user := user2, txns := r.txn :: s.txns },
         { status := 200, success := true })
  else if event = "payment.failed" then
    match findPayment s.payments payload.order_id with
    | none => (s, { status := 200, success := true })
    | some payment =>
      let payment1 :=
        { payment with
          status := "failed"
          failureReason := some (strOrD payload.error_description "Payment failed") }
      ({ s with payments := savePayment s.payments payment1 },
       { status := 200, success := true })
  else
    (s, { status := 200, success := true })

/-- Transactions in the log that reference a given payment id. -/
def txnsForPayment (txns : List Txn) (pid : String) : List Txn :=
  txns.filter (fun t => t.paymentId == some pid)

/-! ## Theorems -/

/-- Helper: the size step function of the pricer agrees with the spec's
byte-threshold table (division by `1024·1024` against `0.5/5/20/50`
equals strict comparison against `524288/…` bytes). -/
theorem getBaseCreditsBySize_eq_spec (size : ℚ) :
    getBaseCreditsBySize size = specSizeCredits size := by
  unfold getBaseCreditsBySize specSizeCredits
  have h1 : size / (1024 * 1024) < 1/2 ↔ size < 524288 := by
    rw [div_lt_iff₀ (by norm_num)]; norm_num
  have h2 : size / (1024 * 1024) < 5 ↔ size < 5242880 := by
    rw [div_lt_iff₀ (by norm_num)]; norm_num
  have h3 : size / (1024 * 1024) < 20 ↔ size < 20971520 := by
    rw [div_lt_iff₀ (by norm_num)]; norm_num
  have h4 : size / (1024 * 1024) < 50 ↔ size < 52428800 := by
    rw [div_lt_iff₀ (by norm_num)]; norm_num
  simp only [h1, h2, h3, h4]

/-- Helper: the time step function is syntactically the spec's table. -/
theorem getTimePenalty_eq_spec (t : ℚ) : getTimePenalty t = specTimeCredits t := rfl

/-- C2 (counterexample): the claim says a file of exactly 500 KiB
(512000 bytes) yields size credits 5; the code yields 2, because
512000 bytes is 0.48828125 MiB, strictly below the 0.5 MiB threshold. -/
theorem C2_counterexample :
    (calculateDynamicCredits 512000 10).breakdown.baseCredits = 2 ∧
    ¬ (calculateDynamicCredits 512000 10).breakdown.baseCredits = 5 := by
  refine ⟨?_, by simp [calculateDynamicCredits, getBaseCreditsBySize_eq_spec,
    specSizeCredits]; norm_num⟩
  simp [calculateDynamicCredits, getBaseCreditsBySize_eq_spec, specSizeCredits]
  norm_num

/-- C2 (amended): the pricer is the sum of the two claimed step functions
with strict thresholds; the 0.5 MiB size boundary sits at 524288 bytes
(512 KiB, not 500 KiB), where the size credits are 5, and at exactly
10 s the time credits are 3. -/
theorem C2_pricer_step_functions (size t : ℚ) :
    (calculateDynamicCredits size t).total
      = (specSizeCredits size : ℤ) + (specTimeCredits t : ℤ)
    ∧ (calculateDynamicCredits size t).breakdown.baseCredits = specSizeCredits size
    ∧ (calculateDynamicCredits size t).breakdown.timeCredits = specTimeCredits t
    ∧ (calculateDynamicCredits 524288 10).breakdown.baseCredits = 5
    ∧ (calculateDynamicCredits 524288 10).breakdown.timeCredits = 3 := by
  refine ⟨?_, ?_, ?_, ?_, ?_⟩
  · show (⌈(getBaseCreditsBySize size + getTimePenalty t : ℚ)⌉ : ℤ) = _
    rw [← Nat.cast_add, Int.ceil_natCast, getBaseCreditsBySize_eq_spec,
      getTimePenalty_eq_spec]
    push_cast
    ring
  · exact getBaseCreditsBySize_eq_spec size
  · rfl
  · show getBaseCreditsBySize 524288 = 5
    rw [getBaseCreditsBySize_eq_spec]
    norm_num [specSizeCredits]
  · show getTimePenalty 10 = 3
    norm_num [getTimePenalty]

/-- C3 (counterexample): `setCredits` (the spec's `SetCredits`) appends a
`credit` transaction whose amount is the new balance, not the balance
delta: replacing a balance of 100 by 50 logs `credit 50` while
`balance_after − balance_before = −50`. -/
theorem C3_counterexample :
    (setCredits { total := 100, used := 0, remaining := 100 } 50 "Credits set by admin").2.txnType
        = "credit"
    ∧ ¬ ((setCredits { total := 100, used := 0, remaining := 100 } 50
          "Credits set by admin").2.balanceAfter
        - (setCredits { total := 100, used := 0, remaining := 100 } 50
          "Credits set by admin").2.balanceBefore
        = (setCredits { total := 100, used := 0, remaining := 100 } 50
          "Credits set by admin").2.amount) := by
  constructor
  · rfl
  · decide

/-- An operation is well-typed when an `addCredits` call uses one of the
transaction types its doc comment allows (`credit`, `bonus`, `refund`). -/
def opWellTyped : LedgerOp → Prop
  | .addOp _ _ txnType => txnType = "credit" ∨ txnType = "bonus" ∨ txnType = "refund"
  | _ => True

/-- C3 (amended): for every ledger operation except `SetCredits`
(`AddCredits`, `DeductUsage`, `Refund`, `AddCreditsFromPayment`), the
appended transaction satisfies `balance_after − balance_before = +amount`
for credit/bonus/refund and `−amount` for debit, and replaying any such
operation log reproduces the remaining balance exactly.  `SetCredits`
violates the law (see the counterexample), so it is excluded. -/
theorem C3_txn_delta_and_replay :
    (∀ (c : Credits) (op : LedgerOp), opWellTyped op →
      (applyLedgerOp c op).2.balanceAfter - (applyLedgerOp c op).2.balanceBefore
          = txnSign (applyLedgerOp c op).2
        ∧ (applyLedgerOp c op).1.remaining = c.remaining + txnSign (applyLedgerOp c op).2)
    ∧ ∀ (c : Credits) (ops : List LedgerOp), (∀ op ∈ ops, opWellTyped op) →
        (applyLedgerOps c ops).1.remaining
          = c.remaining + txnSignSum (applyLedgerOps c ops).2 := by
  have hop : ∀ (c : Credits) (op : LedgerOp), opWellTyped op →
      (applyLedgerOp c op).2.balanceAfter - (applyLedgerOp c op).2.balanceBefore
          = txnSign (applyLedgerOp c op).2
        ∧ (applyLedgerOp c op).1.remaining = c.remaining + txnSign (applyLedgerOp c op).2 := by
    intro c op hw
    cases op with
    | addOp amount description txnType =>
        have hne : txnType ≠ "debit" := by
          rcases hw with h | h | h <;> subst h <;> decide
        simp [applyLedgerOp, addCredits, createTxn, txnSign, hne]
    | deductUsage amount jobId apiKeyId description =>
        simp [applyLedgerOp, deductCreditsForSDK, createTxn, txnSign]
        omega
    | refundOp amount jobId reason =>
        simp [applyLedgerOp, refundCreditsForSDK, createTxn, txnSign]
    | addFromPayment amount paymentId description =>
        simp [applyLedgerOp, addCreditsFromPayment, createTxn, txnSign]
  refine ⟨hop, ?_⟩
  intro c ops
  induction ops generalizing c with
  | nil => intro _; simp [applyLedgerOps, txnSignSum]
  | cons op ops ih =>
      intro hw
      have h1 := hop c op (hw op (List.mem_cons_self _ _))
      have h2 := ih (applyLedgerOp c op).1 (fun o ho => hw o (List.mem_cons_of_mem _ ho))
      simp only [applyLedgerOps, txnSignSum, List.map_cons, List.sum_cons]
      simp only [txnSignSum, applyLedgerOps] at h2
      omega

/-- C3 witness: a concrete well-typed operation log replays to the final
balance. -/
theorem C3_witness :
    (applyLedgerOps { total := 100, used := 0, remaining := 100 }
        [.addOp 50 "monthly bonus" "bonus",
         .deductUsage 30 "job1" none (some "SDK Binary Analysis"),
         .refundOp 10 "job1" "analyzer error",
         .addFromPayment 500 "pay1" "Credit purchase - Standard Plan"]).1.remaining
      = 100 + txnSignSum (applyLedgerOps { total := 100, used := 0, remaining := 100 }
        [.addOp 50 "monthly bonus" "bonus",
         .deductUsage 30 "job1" none (some "SDK Binary Analysis"),
         .refundOp 10 "job1" "analyzer error",
         .addFromPayment 500 "pay1" "Credit purchase - Standard Plan"]).2 := by
  refine C3_txn_delta_and_replay.2 _ _ ?_
  intro op hop
  simp only [List.mem_cons, List.not_mem_nil, or_false] at hop
  rcases hop with h | h | h | h <;> subst h
  · exact Or.inr (Or.inl rfl)
  · trivial
  · trivial
  · trivial

/-- C5: `addCreditsFromPayment` computes `debt = max(0, −remaining)`
before the update, adds the amount to both `remaining` and `total`,
notes "(Debt cleared: N credits)" in the transaction description when
`debt > 0`, and reports the cleared debt in its return value. -/
theorem C5_payment_debt_clearance (c : Credits) (amount : ℤ)
    (paymentId description : String) (hpos : 0 < amount) :
    (addCreditsFromPayment c amount paymentId description).debtCleared
        = max 0 (-c.remaining)
    ∧ (addCreditsFromPayment c amount paymentId description).credits.remaining
        = c.remaining + amount
    ∧ (addCreditsFromPayment c amount paymentId description).credits.total
        = c.total + amount
    ∧ (0 < max 0 (-c.remaining) →
        (addCreditsFromPayment c amount paymentId description).txn.description
          = description ++ " (Debt cleared: " ++ toString (max 0 (-c.remaining))
              ++ " credits)")
    ∧ (max 0 (-c.remaining) = 0 →
        (addCreditsFromPayment c amount paymentId description).txn.description
          = description) := by
  have hdebt : (if c.remaining < 0 then |c.remaining| else 0) = max 0 (-c.remaining) := by
    rcases lt_or_le c.remaining 0 with h | h
    · rw [if_pos h, abs_of_neg h]
      omega
    · rw [if_neg (not_lt.mpr h)]
      omega
  refine ⟨?_, rfl, rfl, ?_, ?_⟩
  · simpa [addCreditsFromPayment, createTxn] using hdebt
  · intro hgt
    simp only [addCreditsFromPayment, createTxn, hdebt]
    rw [if_pos hgt]
  · intro heq
    simp only [addCreditsFromPayment, createTxn, hdebt]
    rw [if_neg (by omega)]

/-- C5 witness: topping up 500 credits onto a balance of −55 clears a
debt of 55 and records it in the transaction description. -/
theorem C5_payment_debt_clearance_witness :
    0 < (500 : ℤ)
    ∧ (addCreditsFromPayment { total := 60, used := 115, remaining := -55 } 500
        "pay_55" "Credit purchase - Standard Plan").txn.description
      = "Credit purchase - Standard Plan (Debt cleared: 55 credits)"
    ∧ (addCreditsFromPayment { total := 60, used := 115, remaining := -55 } 500
        "pay_55" "Credit purchase - Standard Plan").credits.remaining = 445 := by
  refine ⟨by decide, ?_, ?_⟩
  · have h := (C5_payment_debt_clearance { total := 60, used := 115, remaining := -55 }
      500 "pay_55" "Credit purchase - Standard Plan" (by decide)).2.2.2.1 (by decide)
    exact h.trans (by decide)
  · exact ((C5_payment_debt_clearance { total := 60, used := 115, remaining := -55 }
      500 "pay_55" "Credit purchase - Standard Plan" (by decide)).2.1).trans (by decide)

/-- C6 (code_bug): the dashboard analyze route is wired with
`creditCheck(1)` and the middleware's default threshold is 1, so a user
with 3 remaining credits — below the documented 5-credit admission
threshold — is admitted, and rejections use threshold 1:
`required = 1`, `deficit = 1 − available`. -/
theorem C6_admission_gate_threshold_is_one :
    creditCheckDefaultRequired = 1
    ∧ userAnalyzeCreditGate { credits := { total := 100, used := 97, remaining := 3 } }
        = .next 1
    ∧ ((3 : ℤ) < 5)
    ∧ userAnalyzeCreditGate { credits := { total := 100, used := 100, remaining := 0 } }
        = .reject { status := 402, code := "INSUFFICIENT_CREDITS", required := 1,
                    available := 0, deficit := 1 } := by
  refine ⟨rfl, ?_, by decide, ?_⟩ <;> decide

/-- C10: job progress stays within 0..100 — `updateProgress` clamps its
input, `updateStatus("completed")` pins progress to 100,
`updateStatus("failed")` leaves progress unchanged, and every
`updateStatus` preserves the 0..100 interval. -/
theorem C10_progress_bounds (job : JobRecord) (p : ℤ) (status : String)
    (e : Option ErrRecord) (now : ℚ) :
    (0 ≤ (updateProgress job p).progress ∧ (updateProgress job p).progress ≤ 100)
    ∧ (updateStatus job "completed" e now).progress = 100
    ∧ (updateStatus job "failed" e now).progress = job.progress
    ∧ (0 ≤ job.progress → job.progress ≤ 100 →
        0 ≤ (updateStatus job status e now).progress
        ∧ (updateStatus job status e now).progress ≤ 100) := by
  refine ⟨?_, ?_, ?_, ?_⟩
  · constructor <;> simp [updateProgress] <;> omega
  · cases e <;> simp [updateStatus]
  · cases e <;> simp [updateStatus]
  · intro h0 h100
    cases e <;> simp only [updateStatus] <;> split_ifs <;> simp <;> omega

/-- C10 witness: a concrete job keeps its progress in range. -/
theorem C10_progress_bounds_witness :
    0 ≤ (updateStatus
          { id := "j1", userId := "u1", fileHash := "h", filename := "f.bin",
            fileSize := 1000, progress := 40 } "processing" none 7).progress
    ∧ (updateStatus
          { id := "j1", userId := "u1", fileHash := "h", filename := "f.bin",
            fileSize := 1000, progress := 40 } "processing" none 7).progress ≤ 100 :=
  (C10_progress_bounds
    { id := "j1", userId := "u1", fileHash := "h", filename := "f.bin",
      fileSize := 1000, progress := 40 } 55 "processing" none 7).2.2.2
    (by decide) (by decide)

/-- The job row the miss branch of `analyzeSingle` inserts. -/
def ingestedJob (req : SdkRequest) (s : IngestState) (file : UploadFile) : JobRecord :=
  let userTier := strOrD req.userTier "tier2"
  let priority : ℤ := if userTier = "tier1" then 1 else if userTier = "tier2" then 2 else 2
  { id := s.freshId
    userId := req.userId
    apiKeyId := some req.apiKeyId
    fileHash := strOrD file.etag ("cloudinary-" ++ file.filename)
    filename := file.originalname
    cloudinaryUrl := some file.path
    cloudinaryPublicId := some file.filename
    fileSize := file.size
    status := "queued"
    tier := userTier
    priority := priority
    creditsDeducted := 0
    queuedAt := some s.now
    metadata := { sourceIp := req.sourceIp, userAgent := req.userAgent,
                  sdkVersion := req.sdkVersion, ciPlatform := req.ciPlatform } }

/-- C7: on a cache hit (an owner-matching completed job with the same
fingerprint exists) ingestion deletes the fresh blob, creates no job,
touches no transaction, charges nothing, and returns the cached job; on
a miss it creates a `queued` job with `creditsDeducted = 0` and enqueues
it under the user's tier. -/
theorem C7_ingestion_cache (req : SdkRequest) (s : IngestState) (file : UploadFile)
    (hfile : req.file = some file) :
    (∀ j : JobRecord,
      latestCompletedJob s.jobs req.userId
          (strOrD file.etag ("cloudinary-" ++ file.filename)) = some j →
        (analyzeSingle req s).2.cached = true
        ∧ (analyzeSingle req s).2.creditsCharged = some 0
        ∧ (analyzeSingle req s).2.jobId = some j.id
        ∧ (analyzeSingle req s).1.jobs = s.jobs
        ∧ (analyzeSingle req s).1.queue = s.queue
        ∧ (analyzeSingle req s).1.txns = s.txns
        ∧ file.filename ∈ (analyzeSingle req s).1.deletedBlobs)
    ∧ (latestCompletedJob s.jobs req.userId
          (strOrD file.etag ("cloudinary-" ++ file.filename)) = none →
        ∃ newJob : JobRecord,
          (analyzeSingle req s).1.jobs = s.jobs ++ [newJob]
          ∧ newJob.status = "queued"
          ∧ newJob.creditsDeducted = 0
          ∧ newJob.tier = strOrD req.userTier "tier2"
          ∧ (analyzeSingle req s).2.status = 202
          ∧ (analyzeSingle req s).2.cached = false
          ∧ (analyzeSingle req s).1.txns = s.txns
          ∧ (analyzeSingle req s).1.queue = s.queue ++
              [{ processorName := strOrD req.userTier "tier2", jobId := newJob.id,
                 priority := newJob.priority, fileSize := file.size,
                 tier := strOrD req.userTier "tier2", source := "sdk" }]) := by
  constructor
  · intro j hj
    simp [analyzeSingle, hfile, hj]
  · intro hmiss
    refine ⟨ingestedJob req s file, ?_, rfl, rfl, rfl, ?_, ?_, ?_, ?_⟩ <;>
      simp [analyzeSingle, ingestedJob, hfile, hmiss]

/-- C7 witness: a re-upload of an already-completed file is served from
cache without a new job or charge. -/
theorem C7_ingestion_cache_witness :
    (analyzeSingle
      { file := some { originalname := "a.bin", size := 204800, path := "https://cdn/x",
                       filename := "pub1", etag := some "h1" },
        userId := "u1", apiKeyId := "k1" }
      { jobs := [{ id := "j0", userId := "u1", fileHash := "h1", filename := "a.bin",
                   fileSize := 204800, status := "completed", progress := 100,
                   completedAt := some 500 }],
        queue := [] }).2.cached = true
    ∧ (analyzeSingle
      { file := some { originalname := "a.bin", size := 204800, path := "https://cdn/x",
                       filename := "pub1", etag := some "h1" },
        userId := "u1", apiKeyId := "k1" }
      { jobs := [{ id := "j0", userId := "u1", fileHash := "h1", filename := "a.bin",
                   fileSize := 204800, status := "completed", progress := 100,
                   completedAt := some 500 }],
        queue := [] }).2.creditsCharged = some 0 := by
  have h := (C7_ingestion_cache
    { file := some { originalname := "a.bin", size := 204800, path := "https://cdn/x",
                     filename := "pub1", etag := some "h1" },
      userId := "u1", apiKeyId := "k1" }
    { jobs := [{ id := "j0", userId := "u1", fileHash := "h1", filename := "a.bin",
                 fileSize := 204800, status := "completed", progress := 100,
                 completedAt := some 500 }],
      queue := [] }
    { originalname := "a.bin", size := 204800, path := "https://cdn/x",
      filename := "pub1", etag := some "h1" } rfl).1
    { id := "j0", userId := "u1", fileHash := "h1", filename := "a.bin",
      fileSize := 204800, status := "completed", progress := 100,
      completedAt := some 500 }
    (by decide)
  exact ⟨h.1, h.2.1⟩

/-- C8: if the credit deduction fails after a successful analysis, the
worker still completes the job with the results attached, leaves the
ledger untouched, and returns success (so the queue does not retry). -/
theorem C8_ledger_failure_not_fatal (d : JobData) (env : WorkerEnv)
    (s : WorkerState) (aj : JobRecord) (results : RawResults)
    (hjob : s.job = some aj)
    (hdl : env.downloadOk = true)
    (hml : env.analyzerResult = .ok results)
    (hledger : env.ledgerOk = false) :
    ∃ aj1 : JobRecord,
      (processAnalysisJob d env s).1.job = some aj1
      ∧ aj1.status = "completed"
      ∧ aj1.progress = 100
      ∧ aj1.results = some results
      ∧ (processAnalysisJob d env s).1.credits = s.credits
      ∧ (processAnalysisJob d env s).1.txns = s.txns
      ∧ (processAnalysisJob d env s).2
          = .ok { success := true, jobId := d.jobId, results := results
                  creditsCharged := (calculateDynamicCredits d.fileSize
                    ((jsRound ((env.analysisEndTime - env.analysisStartTime) / 1000) : ℤ)
                      : ℚ)).total } := by
  obtain ⟨sjob, scredits, stxns, sac, sbd, std, sev⟩ := s
  obtain ⟨enow, east, eaet, edl, ear, elo⟩ := env
  dsimp only at hjob hdl hml hledger
  subst hjob
  subst hdl
  subst hml
  subst hledger
  exact ⟨_, rfl, rfl, rfl, rfl, rfl, rfl, rfl⟩

/-- C8 witness: a concrete run with a failing ledger write still ends
completed with results, an unchanged balance, and a success result. -/
theorem C8_ledger_failure_not_fatal_witness :
    ∃ aj1 : JobRecord,
      (processAnalysisJob
          { jobId := "j1", userId := "u1", cloudinaryUrl := "cu",
            cloudinaryPublicId := "pid", fileHash := "h", filename := "a.bin",
            fileSize := 204800, tier := "tier2" }
          { now := 9, analysisStartTime := 0, analysisEndTime := 5000,
            downloadOk := true, analyzerResult := .ok {}, ledgerOk := false }
          { job := some { id := "j1", userId := "u1", fileHash := "h",
                          filename := "a.bin", fileSize := 204800 },
            credits := { total := 100, used := 0, remaining := 100 },
            txns := [] }).1.job = some aj1
      ∧ aj1.status = "completed"
      ∧ aj1.progress = 100
      ∧ aj1.results = some {}
      ∧ (processAnalysisJob
          { jobId := "j1", userId := "u1", cloudinaryUrl := "cu",
            cloudinaryPublicId := "pid", fileHash := "h", filename := "a.bin",
            fileSize := 204800, tier := "tier2" }
          { now := 9, analysisStartTime := 0, analysisEndTime := 5000,
            downloadOk := true, analyzerResult := .ok {}, ledgerOk := false }
          { job := some { id := "j1", userId := "u1", fileHash := "h",
                          filename := "a.bin", fileSize := 204800 },
            credits := { total := 100, used := 0, remaining := 100 },
            txns := [] }).1.credits = { total := 100, used := 0, remaining := 100 } := by
  obtain ⟨aj1, h1, h2, h3, h4, h5, _, _⟩ := C8_ledger_failure_not_fatal
    { jobId := "j1", userId := "u1", cloudinaryUrl := "cu",
      cloudinaryPublicId := "pid", fileHash := "h", filename := "a.bin",
      fileSize := 204800, tier := "tier2" }
    { now := 9, analysisStartTime := 0, analysisEndTime := 5000,
      downloadOk := true, analyzerResult := .ok {}, ledgerOk := false }
    { job := some { id := "j1", userId := "u1", fileHash := "h",
                    filename := "a.bin", fileSize := 204800 },
      credits := { total := 100, used := 0, remaining := 100 },
      txns := [] }
    { id := "j1", userId := "u1", fileHash := "h", filename := "a.bin",
      fileSize := 204800 }
    {} rfl rfl rfl rfl
  exact ⟨aj1, h1, h2, h3, h4, h5⟩

/-! C1 failing input: a queue redelivery of a job whose database row is
already `completed` with `creditsDeducted = 12 > 0` (and a matching
debit already in the transaction log). -/

def c1Data : JobData :=
  { jobId := "job-77", userId := "user-1", cloudinaryUrl := "https://cdn/bin",
    cloudinaryPublicId := "pid-77", fileHash := "h77", filename := "a.bin",
    fileSize := 204800, tier := "tier2" }

def c1Job : JobRecord :=
  { id := "job-77", userId := "user-1", fileHash := "h77", filename := "a.bin",
    fileSize := 204800, status := "completed", progress := 100,
    creditsDeducted := 12, results := some {}, completedAt := some 1000 }

def c1State : WorkerState :=
  { job := some c1Job
    credits := { total := 100, used := 12, remaining := 88 }
    txns := [{ txnType := "debit", amount := 12,
               description := "SDK Binary Analysis", jobId := some "job-77",
               balanceBefore := 100, balanceAfter := 88 }] }

def c1Env : WorkerEnv :=
  { now := 2000, analysisStartTime := 0, analysisEndTime := 5000,
    downloadOk := true, analyzerResult := .ok {}, ledgerOk := true }

/-- Evaluation form of the pricer, for concrete-input reasoning. -/
theorem calculateDynamicCredits_eval (size t : ℚ) :
    calculateDynamicCredits size t
      = { total := (specSizeCredits size + specTimeCredits t : ℕ)
          breakdown :=
            { baseCredits := specSizeCredits size
              timeCredits := specTimeCredits t
              complexityCredits := 0 } } := by
  simp only [calculateDynamicCredits, getBaseCreditsBySize_eq_spec,
    getTimePenalty_eq_spec]
  rw [← Nat.cast_add, Int.ceil_natCast]

/-- C1: the worker has no idempotency short-circuit.  Redelivered a job
whose row is already `completed` with `creditsDeducted = 12 > 0`, it
calls the analyzer again and debits the user again (remaining 88 → 86,
a fresh debit transaction for the same job id on top of the one already
logged), instead of short-circuiting as the spec requires. -/
theorem C1_redelivery_double_charges :
    c1Job.status = "completed"
    ∧ 0 < c1Job.creditsDeducted
    ∧ (processAnalysisJob c1Data c1Env c1State).1.analyzerCalls
        = c1State.analyzerCalls + 1
    ∧ (processAnalysisJob c1Data c1Env c1State).1.credits.remaining = 86
    ∧ ∃ t : Txn,
        (processAnalysisJob c1Data c1Env c1State).1.txns = t :: c1State.txns
        ∧ t.txnType = "debit" ∧ t.jobId = some "job-77" ∧ t.amount = 2 := by
  have hround : jsRound ((5000 : ℚ) / 1000) = 5 := by
    unfold jsRound
    have h11 : (5000 : ℚ) / 1000 + 1 / 2 = 11 / 2 := by norm_num
    rw [h11, Int.floor_eq_iff]
    norm_num
  have hcalc : calculateDynamicCredits (204800 : ℚ) (5 : ℚ)
      = { total := 2
          breakdown := { baseCredits := 2, timeCredits := 0, complexityCredits := 0 } } := by
    rw [calculateDynamicCredits_eval]
    norm_num [specSizeCredits, specTimeCredits]
  refine ⟨rfl, by norm_num [c1Job], ?_, ?_, ?_⟩ <;>
    simp [processAnalysisJob, c1Data, c1Env, c1State, c1Job, hround, hcalc,
      deductCreditsForSDK, createTxn, updateStatus, updateProgress, strOrD]

/-- Helper: a found payment matches the queried order id. -/
theorem findPayment_orderId (l : List PaymentRec) (oid : String) (p : PaymentRec)
    (hf : findPayment l oid = some p) : p.razorpayOrderId = oid := by
  unfold findPayment at hf
  have h := List.find?_some hf
  simpa using h

/-- Helper: saving an updated row (same `_id`, same order id) makes the
order-id lookup return the updated row. -/
theorem findPayment_savePayment (l : List PaymentRec) (oid : String) (p p1 : PaymentRec)
    (hf : findPayment l oid = some p) (hid : p1.id = p.id)
    (hord : p1.razorpayOrderId = oid) :
    findPayment (savePayment l p1) oid = some p1 := by
  induction l with
  | nil => simp [findPayment] at hf
  | cons q t ih =>
    unfold findPayment at hf ih ⊢
    unfold savePayment at ih ⊢
    rw [List.find?_cons] at hf
    simp only [List.map_cons]
    rw [List.find?_cons]
    by_cases hq : (q.razorpayOrderId == oid) = true
    · simp only [hq] at hf
      have hqp : q = p := Option.some.inj hf
      have hqid : (q.id == p1.id) = true := by simp [hqp, hid]
      rw [if_pos hqid]
      simp [hord]
    · simp only [Bool.not_eq_true] at hq
      simp only [hq] at hf
      by_cases hqid : (q.id == p1.id) = true
      · rw [if_pos hqid]
        simp [hord]
      · rw [if_neg hqid]
        simp only [hq]
        exact ih hf

/-- One application of the `payment.captured` webhook to the state. -/
def webhookStep (payload : WebhookPayload) (s : WebhookState) : WebhookState :=
  (handleWebhook "payment.captured" payload s).1

/-- C4 (code_bug evidence): the `payment.captured` webhook is idempotent
in balance and replay — one application grows the balance by the plan's
credits and appends exactly one `credit` transaction, and every replay
returns a success response with no state change, so `n ≥ 1` applications
equal one — but the transaction it stores does *not* reference the
payment: `CreditTransaction`'s schema has no `paymentId` path, Mongoose
strict mode drops the field `addCreditsFromPayment` passes, and so no
stored Transaction ever references the payment id, against the claim's
"exactly one credit Transaction referencing the payment exists". -/
theorem C4_webhook_replay (payload : WebhookPayload) (s : WebhookState) (p : PaymentRec)
    (hf : findPayment s.payments payload.order_id = some p)
    (hna : p.creditsAdded = false)
    (hschema : ∀ t ∈ s.txns, t.paymentId = none) :
    (webhookStep payload s).user.credits.remaining
        = s.user.credits.remaining + p.creditsAmount
    ∧ (∃ t : Txn, (webhookStep payload s).txns = t :: s.txns
        ∧ t.txnType = "credit" ∧ t.amount = p.creditsAmount ∧ t.paymentId = none)
    ∧ (∀ t ∈ (webhookStep payload s).txns, t.paymentId = none)
    ∧ (txnsForPayment (webhookStep payload s).txns p.id).length = 0
    ∧ handleWebhook "payment.captured" payload (webhookStep payload s)
        = (webhookStep payload s,
           { status := 200, success := true, message := "Already processed" })
    ∧ ∀ n : ℕ, 1 ≤ n → (webhookStep payload)^[n] s = webhookStep payload s := by
  have hord : p.razorpayOrderId = payload.order_id := findPayment_orderId _ _ _ hf
  have h1 : findPayment (savePayment s.payments (capturedPayment payload p))
      payload.order_id = some (capturedPayment payload p) :=
    findPayment_savePayment _ _ p _ hf rfl hord
  have h2 : findPayment
      (savePayment (savePayment s.payments (capturedPayment payload p))
        { capturedPayment payload p with creditsAdded := true })
      payload.order_id = some { capturedPayment payload p with creditsAdded := true } :=
    findPayment_savePayment _ _ _ _ h1 rfl hord
  have hstep : webhookStep payload s
      = { payments := savePayment (savePayment s.payments (capturedPayment payload p))
            { capturedPayment payload p with creditsAdded := true }
          user := { s.user with
            credits := (addCreditsFromPayment s.user.credits p.creditsAmount p.id
              ("Credit purchase - " ++ p.planName)).credits
            paymentHistory := if p.id ∈ s.user.paymentHistory then s.user.paymentHistory
              else s.user.paymentHistory ++ [p.id]
            totalSpent := some (s.user.totalSpent.getD 0 + p.amount / 100)
            lifetimeCredits := some (s.user.lifetimeCredits.getD 0 + p.creditsAmount) }
          txns := (addCreditsFromPayment s.user.credits p.creditsAmount p.id
            ("Credit purchase - " ++ p.planName)).txn :: s.txns } := by
    simp [webhookStep, handleWebhook, hf, hna]
  have hall : ∀ t ∈ (webhookStep payload s).txns, t.paymentId = none := by
    rw [hstep]
    intro t ht
    rcases List.mem_cons.mp ht with hhd | hmem
    · rw [hhd]
      simp [addCreditsFromPayment, createTxn]
    · exact hschema t hmem
  have hreplay : handleWebhook "payment.captured" payload (webhookStep payload s)
      = (webhookStep payload s,
         { status := 200, success := true, message := "Already processed" }) := by
    rw [hstep]
    simp only [handleWebhook, reduceIte]
    rw [h2]
    simp
  refine ⟨?_, ?_, hall, ?_, hreplay, ?_⟩
  · rw [hstep]
    simp [addCreditsFromPayment]
  · refine ⟨(addCreditsFromPayment s.user.credits p.creditsAmount p.id
      ("Credit purchase - " ++ p.planName)).txn, ?_, ?_, ?_, ?_⟩
    · rw [hstep]
    · simp [addCreditsFromPayment, createTxn]
    · simp [addCreditsFromPayment, createTxn]
    · simp [addCreditsFromPayment, createTxn]
  · have hnil : txnsForPayment (webhookStep payload s).txns p.id = [] := by
      unfold txnsForPayment
      rw [List.filter_eq_nil_iff]
      intro a ha
      simp [hall a ha]
    rw [hnil]
    rfl
  · intro n hn
    induction n with
    | zero => exact absurd hn (by norm_num)
    | succ k ih =>
      cases Nat.eq_zero_or_pos k with
      | inl hk => subst hk; rfl
      | inr hk =>
        rw [Function.iterate_succ_apply', ih hk]
        have := congrArg Prod.fst hreplay
        simpa [webhookStep] using this

def c4Payload : WebhookPayload :=
  { order_id := "ord1", payment_id := "payrz1", method := "card" }

def c4Pay : PaymentRec :=
  { id := "p1", userId := "u1", razorpayOrderId := "ord1",
    planName := "Standard", creditsAmount := 500, amount := 450000 }

def c4State : WebhookState :=
  { payments := [c4Pay]
    user := { id := "u1", credits := { total := 60, used := 115, remaining := -55 } }
    txns := [] }

/-- C4 witness: a concrete captured payment credits the user once, yet
no stored transaction references the payment id. -/
theorem C4_webhook_replay_witness :
    (webhookStep c4Payload c4State).user.credits.remaining
        = c4State.user.credits.remaining + 500
    ∧ (txnsForPayment (webhookStep c4Payload c4State).txns "p1").length = 0 := by
  have h := C4_webhook_replay c4Payload c4State c4Pay rfl rfl
    (by intro t ht; simp [c4State] at ht)
  exact ⟨h.1, h.2.2.2.1⟩

/-- Helper: `_inferStructure` never returns the empty string. -/
theorem inferStructure_ne_empty (n : Option String) : inferStructure n ≠ some "" := by
  cases n with
  | none => simp [inferStructure]
  | some an =>
    simp only [inferStructure]
    split_ifs <;> simp

theorem orStr_none_left (b : Option String) : orStr none b = b := rfl

theorem orNum_none_left (b : Option ℚ) : orNum none b = b := rfl

theorem orStr_right_none (a : Option String) (h : a ≠ some "") : orStr a none = a := by
  cases a with
  | none => rfl
  | some s =>
    simp only [orStr]
    rw [if_neg]
    intro hs
    exact h (by rw [hs])

/-- Helper: the per-algorithm normalization map is idempotent. -/
theorem mapAlgo_idem (a : RawAlgo) : mapAlgo (mapAlgo a) = mapAlgo a := by
  have hX : orStr a.structural_signature (inferStructure a.name) ≠ some "" := by
    cases ha : a.structural_signature with
    | none => simpa [orStr] using inferStructure_ne_empty a.name
    | some s =>
      by_cases hs : s = ""
      · simpa [orStr, hs] using inferStructure_ne_empty a.name
      · simp [orStr, hs]
  have hinf : inferStructure none = none := rfl
  unfold mapAlgo
  dsimp only
  rw [hinf]
  simp only [orStr_none_left, orNum_none_left, Option.getD_some]
  rw [orStr_right_none _ hX]

theorem map_mapAlgo_idem (l : List RawAlgo) :
    (l.map mapAlgo).map mapAlgo = l.map mapAlgo := by
  induction l with
  | nil => rfl
  | cons a t ih => simp [mapAlgo_idem, ih]

def c9Vuln : RawVuln :=
  { severity := "high", vulnType := "Hardcoded Key", description := "AES key embedded" }

def c9Raw : RawResults :=
  { vulnerabilities := some [c9Vuln] }

/-- C9 (counterexample): normalization is not idempotent.  A flat legacy
response with one high-severity vulnerability normalizes to an artifact
whose `vulnerability_assessment.has_vulnerabilities` is `true`, but the
second pass reads the (absent) top-level `vulnerabilities` key of the
canonical shape and reports `false`. -/
theorem C9_counterexample :
    ¬ normalizeResults (normalizeResults c9Raw) = normalizeResults c9Raw := by
  intro h
  have hv := congrArg
    (fun r : RawResults => r.vulnerability_assessment.map (fun va => va.has_vulnerabilities)) h
  dsimp only at hv
  rw [show (normalizeResults (normalizeResults c9Raw)).vulnerability_assessment.map
        (fun va => va.has_vulnerabilities) = some false from rfl] at hv
  rw [show (normalizeResults c9Raw).vulnerability_assessment.map
        (fun va => va.has_vulnerabilities) = some true from rfl] at hv
  exact Bool.noConfusion (Option.some.inj hv)

/-- C9 (amended): normalization is idempotent on the file metadata,
detected algorithms and protocol components: a second pass preserves
`file_metadata`, `detected_algorithms` and `detected_protocols`.  It is
not idempotent on the whole artifact (see the counterexample): the
vulnerability assessment, tag and summary fields are rebuilt from keys
the canonical shape no longer carries. -/
theorem C9_normalize_stable_components (x : RawResults) :
    (normalizeResults (normalizeResults x)).file_metadata
        = (normalizeResults x).file_metadata
    ∧ (normalizeResults (normalizeResults x)).detected_algorithms
        = (normalizeResults x).detected_algorithms
    ∧ (normalizeResults (normalizeResults x)).detected_protocols
        = (normalizeResults x).detected_protocols := by
  refine ⟨rfl, ?_, rfl⟩
  show some ((((x.analysis.getD x.toAnalyzerData).detected_algorithms.getD []).map
      mapAlgo).map mapAlgo)
    = some (((x.analysis.getD x.toAnalyzerData).detected_algorithms.getD []).map mapAlgo)
  rw [map_mapAlgo_idem]
